import Mathlib

/-!
Verification of the GPS acquisition and trip-distance subsystem of the
Boat-App repository (src/src/hooks/useGPS.ts, src/src/lib/utils.ts, and the
extended hook variant in src/unnamed/part_006).

Numeric code is embedded over the exact reals (JS floating point becomes
real arithmetic); platform-supplied numeric payloads (coordinates, accuracy
values) are embedded as rationals so that state-machine definitions stay
executable.  Asynchronous platform callbacks become explicit outcome
parameters, and React state updates become explicit state-record updates.
-/

namespace BoatApp

/-! ### Geodesy: `calculateDistance` (useGPS.ts lines 244-257, utils.ts lines 38-56)

JavaScript `Math.atan2(y, x)` embedded over the reals (signed zeros are not
representable, which does not matter on the arguments used here, both of
which are square roots and hence non-negative). -/

noncomputable def atan2 (y x : ℝ) : ℝ :=
  if 0 < x then Real.arctan (y / x)
  else if x < 0 then
    (if 0 ≤ y then Real.arctan (y / x) + Real.pi else Real.arctan (y / x) - Real.pi)
  else
    (if 0 < y then Real.pi / 2 else if y < 0 then -(Real.pi / 2) else 0)

/-- The local `a` of the source `calculateDistance`:
`Math.sin(dphi/2)*Math.sin(dphi/2) + Math.cos(phi1)*Math.cos(phi2)*Math.sin(dlam/2)*Math.sin(dlam/2)`
with `phi = lat * Math.PI / 180` and the deltas `(lat2-lat1) * Math.PI / 180`. -/
noncomputable def haversineA (lat1 lon1 lat2 lon2 : ℝ) : ℝ :=
  Real.sin ((lat2 - lat1) * Real.pi / 180 / 2) * Real.sin ((lat2 - lat1) * Real.pi / 180 / 2) +
    Real.cos (lat1 * Real.pi / 180) * Real.cos (lat2 * Real.pi / 180) *
      Real.sin ((lon2 - lon1) * Real.pi / 180 / 2) * Real.sin ((lon2 - lon1) * Real.pi / 180 / 2)

/-- Source `calculateDistance`: `R = 6371e3`, `c = 2 * Math.atan2(Math.sqrt(a), Math.sqrt(1-a))`,
result `R * c`. -/
noncomputable def calculateDistance (lat1 lon1 lat2 lon2 : ℝ) : ℝ :=
  6371000 * (2 * atan2 (Real.sqrt (haversineA lat1 lon1 lat2 lon2))
    (Real.sqrt (1 - haversineA lat1 lon1 lat2 lon2)))

/-- Modelled from the spec wording of 4.5 `distanceMeters` (for the refinement
comparison of claim C7): `a = sin^2 (dphi/2) + cos phi1 * cos phi2 * sin^2 (dlam/2)`,
`c = 2 * atan2 (sqrt a, sqrt (1-a))`, `d = R * c` with `R = 6371000`. -/
noncomputable def haversineSpecA (lat1 lon1 lat2 lon2 : ℝ) : ℝ :=
  Real.sin ((lat2 - lat1) * Real.pi / 180 / 2) ^ 2 +
    Real.cos (lat1 * Real.pi / 180) * Real.cos (lat2 * Real.pi / 180) *
      Real.sin ((lon2 - lon1) * Real.pi / 180 / 2) ^ 2

noncomputable def haversineSpecDistance (lat1 lon1 lat2 lon2 : ℝ) : ℝ :=
  6371000 * (2 * atan2 (Real.sqrt (haversineSpecA lat1 lon1 lat2 lon2))
    (Real.sqrt (1 - haversineSpecA lat1 lon1 lat2 lon2)))

/-! Helper lemmas about `atan2` and `calculateDistance`. -/

theorem atan2_nonneg (y x : ℝ) (hy : 0 ≤ y) (hx : 0 ≤ x) : 0 ≤ atan2 y x := by
  unfold atan2
  rcases lt_or_eq_of_le hx with hxpos | hxzero
  · rw [if_pos hxpos]
    have h := Real.arctan_strictMono.monotone (div_nonneg hy hxpos.le)
    rwa [Real.arctan_zero] at h
  · rw [if_neg (by rw [← hxzero]; exact lt_irrefl 0),
      if_neg (by rw [← hxzero]; exact lt_irrefl 0)]
    rcases lt_or_eq_of_le hy with hypos | hyzero
    · rw [if_pos hypos]
      linarith [Real.pi_pos]
    · rw [if_neg (by rw [← hyzero]; exact lt_irrefl 0),
        if_neg (by rw [← hyzero]; exact lt_irrefl 0)]


theorem calculateDistance_nonneg (lat1 lon1 lat2 lon2 : ℝ) :
    0 ≤ calculateDistance lat1 lon1 lat2 lon2 := by
  unfold calculateDistance
  have h := atan2_nonneg (Real.sqrt (haversineA lat1 lon1 lat2 lon2))
    (Real.sqrt (1 - haversineA lat1 lon1 lat2 lon2)) (Real.sqrt_nonneg _) (Real.sqrt_nonneg _)
  positivity

theorem haversineA_self (lat lon : ℝ) : haversineA lat lon lat lon = 0 := by
  unfold haversineA
  rw [show (lat - lat) * Real.pi / 180 / 2 = 0 by ring,
    show (lon - lon) * Real.pi / 180 / 2 = 0 by ring, Real.sin_zero]
  ring

theorem haversineA_comm (lat1 lon1 lat2 lon2 : ℝ) :
    haversineA lat1 lon1 lat2 lon2 = haversineA lat2 lon2 lat1 lon1 := by
  unfold haversineA
  rw [show (lat1 - lat2) * Real.pi / 180 / 2 = -((lat2 - lat1) * Real.pi / 180 / 2) by ring,
    show (lon1 - lon2) * Real.pi / 180 / 2 = -((lon2 - lon1) * Real.pi / 180 / 2) by ring,
    Real.sin_neg, Real.sin_neg]
  ring

theorem calculateDistance_self (lat lon : ℝ) : calculateDistance lat lon lat lon = 0 := by
  unfold calculateDistance
  rw [haversineA_self, Real.sqrt_zero, sub_zero, Real.sqrt_one]
  unfold atan2
  rw [if_pos one_pos]
  rw [zero_div, Real.arctan_zero]
  ring

theorem calculateDistance_comm (lat1 lon1 lat2 lon2 : ℝ) :
    calculateDistance lat1 lon1 lat2 lon2 = calculateDistance lat2 lon2 lat1 lon1 := by
  unfold calculateDistance
  rw [haversineA_comm]

theorem haversineA_eq_spec (lat1 lon1 lat2 lon2 : ℝ) :
    haversineA lat1 lon1 lat2 lon2 = haversineSpecA lat1 lon1 lat2 lon2 := by
  unfold haversineA haversineSpecA
  ring

theorem calculateDistance_eq_spec (lat1 lon1 lat2 lon2 : ℝ) :
    calculateDistance lat1 lon1 lat2 lon2 = haversineSpecDistance lat1 lon1 lat2 lon2 := by
  unfold calculateDistance haversineSpecDistance
  rw [haversineA_eq_spec]

theorem haversineA_equator : haversineA 0 0 0 1 = Real.sin (Real.pi / 360) ^ 2 := by
  unfold haversineA
  rw [show ((0:ℝ) - 0) * Real.pi / 180 / 2 = 0 by ring,
    show (0:ℝ) * Real.pi / 180 = 0 by ring,
    show ((1:ℝ) - 0) * Real.pi / 180 / 2 = Real.pi / 360 by ring,
    Real.sin_zero, Real.cos_zero]
  ring

theorem calculateDistance_equator : calculateDistance 0 0 0 1 = 6371000 * (Real.pi / 180) := by
  have hsin : 0 ≤ Real.sin (Real.pi / 360) :=
    Real.sin_nonneg_of_nonneg_of_le_pi (by positivity) (by linarith [Real.pi_pos])
  have hcos : 0 < Real.cos (Real.pi / 360) :=
    Real.cos_pos_of_mem_Ioo ⟨by linarith [Real.pi_pos], by linarith [Real.pi_pos]⟩
  unfold calculateDistance
  rw [haversineA_equator, Real.sqrt_sq hsin,
    show 1 - Real.sin (Real.pi / 360) ^ 2 = Real.cos (Real.pi / 360) ^ 2 by
      rw [Real.cos_sq']
    , Real.sqrt_sq hcos.le]
  unfold atan2
  rw [if_pos hcos, ← Real.tan_eq_sin_div_cos,
    Real.arctan_tan (by linarith [Real.pi_pos]) (by linarith [Real.pi_pos])]
  ring

/-! ### Position data model and normalization (useGPS.ts `handlePositionUpdate`, lines 57-71)

A raw platform sample (`GeolocationPosition`) carries `number | null` fields,
embedded as `Option ℚ`; the JavaScript `value || undefined` normalization maps
both `null` and `0` to an absent field. -/

structure GPSPosition where
  latitude : ℚ
  longitude : ℚ
  accuracy : ℚ
  altitude : Option ℚ
  altitudeAccuracy : Option ℚ
  heading : Option ℚ
  speed : Option ℚ
  timestamp : Int
  deriving DecidableEq

structure RawCoords where
  latitude : ℚ
  longitude : ℚ
  accuracy : ℚ
  altitude : Option ℚ
  altitudeAccuracy : Option ℚ
  heading : Option ℚ
  speed : Option ℚ
  deriving DecidableEq

structure RawGeoPosition where
  coords : RawCoords
  timestamp : Int
  deriving DecidableEq

/-- JavaScript `v || undefined` on a `number | null` value: `null` and `0` become
absent, anything else is kept. -/
def orUndefined (v : Option ℚ) : Option ℚ :=
  match v with
  | none => none
  | some x => if x = 0 then none else some x

/-- The `GPSPosition` record built by `handlePositionUpdate` (and by the success
callback of `getCurrentPosition`): fields copied, the four optional fields run
through `value || undefined`. -/
def normalizePosition (p : RawGeoPosition) : GPSPosition :=
  { latitude := p.coords.latitude
    longitude := p.coords.longitude
    accuracy := p.coords.accuracy
    altitude := orUndefined p.coords.altitude
    altitudeAccuracy := orUndefined p.coords.altitudeAccuracy
    heading := orUndefined p.coords.heading
    speed := orUndefined p.coords.speed
    timestamp := p.timestamp }

/-! ### Position classifier (useGPS.ts `getAccuracyLevel` / `getSignalStrength`, lines 41-54) -/

inductive AccuracyLevel
  | high
  | medium
  | low
  | poor
  deriving DecidableEq

inductive SignalStrength
  | excellent
  | good
  | fair
  | poor
  deriving DecidableEq

def getAccuracyLevel (accuracy : ℚ) : AccuracyLevel :=
  if accuracy < 5 then AccuracyLevel.high
  else if accuracy < 10 then AccuracyLevel.medium
  else if accuracy < 20 then AccuracyLevel.low
  else AccuracyLevel.poor

def getSignalStrength (accuracy : ℚ) : SignalStrength :=
  if accuracy < 3 then SignalStrength.excellent
  else if accuracy < 8 then SignalStrength.good
  else if accuracy < 15 then SignalStrength.fair
  else SignalStrength.poor

/-- The `accuracy` field of the hook return value (useGPS.ts lines 198-207):
`position ? getAccuracyLevel(position.accuracy) : 'poor'`. -/
def exposedAccuracy (position : Option GPSPosition) : AccuracyLevel :=
  match position with
  | some p => getAccuracyLevel p.accuracy
  | none => AccuracyLevel.poor

/-- The `signalStrength` field of the hook return value:
`position ? getSignalStrength(position.accuracy) : 'poor'`. -/
def exposedSignalStrength (position : Option GPSPosition) : SignalStrength :=
  match position with
  | some p => getSignalStrength p.accuracy
  | none => SignalStrength.poor

/-! ### GPS session state machine (useGPS.ts `useGPS`, lines 96-170)

React state (`position`, `error`, `isTracking`) and refs (`watchIdRef`,
`intervalIdRef`) become one state record.  The platform adapter is made
explicit: `liveWatches` is the set of watch subscriptions currently registered
and not yet cancelled on the platform side, and `nextHandle` is the platform's
handle allocator.  Platform callback outcomes are passed in as `FetchOutcome`
arguments. -/

inductive GeoErrorCode
  | permissionDenied
  | positionUnavailable
  | timeout
  | other (msg : String)
  deriving DecidableEq

inductive GPSError
  | notSupported
  | permissionDenied
  | positionUnavailable
  | timeout
  | unknownError (msg : String)
  deriving DecidableEq

inductive FetchOutcome
  | success (raw : RawGeoPosition)
  | failure (code : GeoErrorCode)
  deriving DecidableEq

def fetchIsSuccess : FetchOutcome → Bool
  | FetchOutcome.success _ => true
  | FetchOutcome.failure _ => false

structure GPSState where
  position : Option GPSPosition := none
  error : Option GPSError := none
  isTracking : Bool := false
  watchId : Option Nat := none
  intervalId : Option Nat := none
  liveWatches : List Nat := []
  nextHandle : Nat := 0
  deriving DecidableEq

/-- The switch of `handleError` (useGPS.ts lines 74-93) mapping a
`GeolocationPositionError` code to the stored error message. -/
def errorMessageOf : GeoErrorCode → GPSError
  | GeoErrorCode.permissionDenied => GPSError.permissionDenied
  | GeoErrorCode.positionUnavailable => GPSError.positionUnavailable
  | GeoErrorCode.timeout => GPSError.timeout
  | GeoErrorCode.other msg => GPSError.unknownError msg

/-- `handlePositionUpdate` (useGPS.ts lines 57-71): stores the normalized
position and clears the error. -/
def handlePositionUpdate (raw : RawGeoPosition) (s : GPSState) : GPSState :=
  { s with position := some (normalizePosition raw), error := none }

/-- `handleError` (useGPS.ts lines 74-93): stores the classified error message
and sets `isTracking` to false. -/
def handleError (code : GeoErrorCode) (s : GPSState) : GPSState :=
  { s with error := some (errorMessageOf code), isTracking := false }

/-- `getCurrentPosition` (useGPS.ts lines 96-126).  `supported` is the
`navigator.geolocation` capability check; `outcome` is how the platform
resolves the single-shot fetch.  The second component models the returned
promise: `some r` means the promise resolves with `r`, `none` means the promise
never settles (the source error callback `handleError` never calls `resolve`). -/
def getCurrentPosition (supported : Bool) (outcome : FetchOutcome) (s : GPSState) :
    GPSState × Option (Option GPSPosition) :=
  if supported = false then ({ s with error := some GPSError.notSupported }, some none)
  else
    match outcome with
    | FetchOutcome.success raw =>
        (handlePositionUpdate raw s, some (some (normalizePosition raw)))
    | FetchOutcome.failure code => (handleError code s, none)

/-- `startTracking` (useGPS.ts lines 129-155): sets `isTracking`, clears the
error, registers a fresh `watchPosition` subscription and stores its handle in
`watchIdRef` (overwriting any previous handle without cancelling it), then,
when background tracking is enabled with a positive interval, schedules the
interval fallback. -/
def startTracking (enableBackgroundTracking : Bool) (watchInterval : Int)
    (supported : Bool) (s : GPSState) : GPSState :=
  if supported = false then { s with error := some GPSError.notSupported }
  else
    let wid := s.nextHandle
    let s1 : GPSState :=
      { s with
        isTracking := true
        error := none
        watchId := some wid
        liveWatches := wid :: s.liveWatches
        nextHandle := s.nextHandle + 1 }
    if enableBackgroundTracking = true ∧ watchInterval > 0 then
      { s1 with intervalId := some s1.nextHandle, nextHandle := s1.nextHandle + 1 }
    else s1

/-- `stopTracking` (useGPS.ts lines 158-170): `clearWatch` on the stored handle
if any, `clearInterval` on the stored interval if any, then `setIsTracking
false`.  The error and the position are not touched. -/
def stopTracking (s : GPSState) : GPSState :=
  let s1 : GPSState :=
    match s.watchId with
    | some wid => { s with liveWatches := s.liveWatches.erase wid, watchId := none }
    | none => s
  let s2 : GPSState :=
    match s1.intervalId with
    | some _ => { s1 with intervalId := none }
    | none => s1
  { s2 with isTracking := false }

/-! ### Permission tracker of the extended hook (src/unnamed/part_006)

`requestPermission` (part_006 lines 111-177) first runs
`checkPermissionStatus` (lines 65-109); the platform environment (browser
capability, Permissions API availability, query result, and how each
single-shot fetch would resolve) is passed in explicitly.  The second `Bool`
returned by `requestPermission` is a ghost observation recording whether a
single-shot position fetch succeeded during the call. -/

namespace Part006

inductive PermStatus
  | unknown
  | granted
  | denied
  | prompt
  deriving DecidableEq

structure P6State where
  position : Option GPSPosition := none
  error : Option GPSError := none
  isTracking : Bool := false
  permissionStatus : PermStatus := PermStatus.unknown
  permissionGranted : Option Bool := none
  deriving DecidableEq

structure PermEnv where
  isBrowser : Bool
  geoSupported : Bool
  permApiAvailable : Bool
  queryOk : Bool
  queryResult : PermStatus
  probeOutcome : FetchOutcome
  mainFetchOutcome : FetchOutcome
  deriving DecidableEq

/-- `checkPermissionStatus` (part_006 lines 65-109): returns `'denied'` without
touching state when not in a browser or geolocation is absent; uses the
Permissions API query when available (and not throwing), recording the status
and the granted flag; otherwise probes with a short-timeout single-shot fetch,
mapping success to granted, a permission-denied failure to denied, and any
other failure to prompt. -/
def checkPermissionStatus (env : PermEnv) (s : P6State) : PermStatus × P6State :=
  if env.isBrowser = false ∨ env.geoSupported = false then (PermStatus.denied, s)
  else if env.permApiAvailable = true ∧ env.queryOk = true then
    (env.queryResult,
      { s with
        permissionStatus := env.queryResult
        permissionGranted := some (decide (env.queryResult = PermStatus.granted)) })
  else
    match env.probeOutcome with
    | FetchOutcome.success _ =>
        (PermStatus.granted,
          { s with permissionStatus := PermStatus.granted, permissionGranted := some true })
    | FetchOutcome.failure GeoErrorCode.permissionDenied =>
        (PermStatus.denied,
          { s with permissionStatus := PermStatus.denied, permissionGranted := some false })
    | FetchOutcome.failure _ =>
        (PermStatus.prompt,
          { s with permissionStatus := PermStatus.prompt, permissionGranted := none })

/-- Whether the probe fetch inside `checkPermissionStatus` ran and succeeded
(it runs exactly when the Permissions API path is not taken). -/
def probeFetchSucceeded (env : PermEnv) : Bool :=
  if env.permApiAvailable = true ∧ env.queryOk = true then false
  else fetchIsSuccess env.probeOutcome

/-- `requestPermission` (part_006 lines 111-177).  Returns
`(result, fetchSucceeded, state)` where `fetchSucceeded` is the ghost flag for
"some single-shot fetch succeeded during this call". -/
def requestPermission (env : PermEnv) (s : P6State) : Bool × Bool × P6State :=
  if env.isBrowser = false ∨ env.geoSupported = false then
    (false, false,
      { s with
        error := some GPSError.notSupported
        permissionStatus := PermStatus.denied
        permissionGranted := some false })
  else
    let r := checkPermissionStatus env s
    if r.1 = PermStatus.granted then (true, probeFetchSucceeded env, r.2)
    else if r.1 = PermStatus.denied then
      (false, probeFetchSucceeded env, { r.2 with error := some GPSError.permissionDenied })
    else
      match env.mainFetchOutcome with
      | FetchOutcome.success _ =>
          (true, true,
            { r.2 with
              permissionStatus := PermStatus.granted
              permissionGranted := some true })
      | FetchOutcome.failure GeoErrorCode.permissionDenied =>
          (false, probeFetchSucceeded env,
            { r.2 with
              error := some GPSError.permissionDenied
              permissionStatus := PermStatus.denied
              permissionGranted := some false })
      | FetchOutcome.failure GeoErrorCode.positionUnavailable =>
          (false, probeFetchSucceeded env,
            { r.2 with
              error := some GPSError.positionUnavailable
              permissionStatus := PermStatus.denied
              permissionGranted := some false })
      | FetchOutcome.failure GeoErrorCode.timeout =>
          (false, probeFetchSucceeded env, { r.2 with error := some GPSError.timeout })
      | FetchOutcome.failure (GeoErrorCode.other msg) =>
          (false, probeFetchSucceeded env,
            { r.2 with error := some (GPSError.unknownError msg) })

end Part006

/-! ### Trip distance accumulator (useGPS.ts `useTripDistance`, lines 211-241) -/

structure TripState where
  totalDistance : ℝ
  lastPosition : Option GPSPosition

/-- Initial hook state: `useState(0)` and `useRef(null)`. -/
noncomputable def initialTrip : TripState :=
  { totalDistance := 0, lastPosition := none }

/-- `addPoint`: when a previous point exists, adds
`calculateDistance(prev.lat, prev.lon, p.lat, p.lon)` to the running total;
always stores the new point as the previous point. -/
noncomputable def addPoint (s : TripState) (p : GPSPosition) : TripState :=
  match s.lastPosition with
  | some q =>
      { totalDistance := s.totalDistance +
          calculateDistance (q.latitude : ℝ) (q.longitude : ℝ) (p.latitude : ℝ) (p.longitude : ℝ)
        lastPosition := some p }
  | none => { totalDistance := s.totalDistance, lastPosition := some p }

/-- `reset`: total back to 0, previous point cleared. -/
noncomputable def resetTrip (_s : TripState) : TripState :=
  { totalDistance := 0, lastPosition := none }

/-- The exposed running total (`totalDistance` of the hook return value). -/
noncomputable def getTotal (s : TripState) : ℝ := s.totalDistance

/-! ### Concrete sample inputs used by witnesses -/

def sampleRaw : RawGeoPosition :=
  { coords :=
      { latitude := 1
        longitude := 2
        accuracy := 3
        altitude := none
        altitudeAccuracy := none
        heading := none
        speed := none }
    timestamp := 0 }

def sampleRawZeros : RawGeoPosition :=
  { coords :=
      { latitude := 1
        longitude := 2
        accuracy := 3
        altitude := some 0
        altitudeAccuracy := some 0
        heading := some 0
        speed := some 0 }
    timestamp := 0 }

def sampleRawHeading : RawGeoPosition :=
  { coords :=
      { latitude := 1
        longitude := 2
        accuracy := 3
        altitude := none
        altitudeAccuracy := none
        heading := some 90
        speed := some 4 }
    timestamp := 0 }

/-- A concrete Active session state. -/
def sampleActiveState : GPSState :=
  { isTracking := true, watchId := some 0, liveWatches := [0], nextHandle := 1 }

/-- A concrete Active session state carrying a stored timeout error. -/
def sampleErrorState : GPSState :=
  { error := some GPSError.timeout, isTracking := true, watchId := some 0, liveWatches := [0], nextHandle := 1 }

/-- A concrete state with a live watch, a scheduled interval and a stored error. -/
def sampleFullState : GPSState :=
  { error := some GPSError.timeout, isTracking := true, watchId := some 3, intervalId := some 7, liveWatches := [3], nextHandle := 8 }

/-- A platform environment whose Permissions API reports granted and on which
every single-shot fetch would time out. -/
def sampleGrantedEnv : Part006.PermEnv :=
  { isBrowser := true, geoSupported := true, permApiAvailable := true, queryOk := true, queryResult := Part006.PermStatus.granted, probeOutcome := FetchOutcome.failure GeoErrorCode.timeout, mainFetchOutcome := FetchOutcome.failure GeoErrorCode.timeout }

/-! ### Accumulator step lemmas (shared) -/

theorem addPoint_lastPosition (s : TripState) (p : GPSPosition) :
    (addPoint s p).lastPosition = some p := by
  unfold addPoint
  cases s.lastPosition <;> rfl

theorem addPoint_total_le (s : TripState) (p : GPSPosition) :
    getTotal s ≤ getTotal (addPoint s p) := by
  unfold addPoint getTotal
  cases h : s.lastPosition with
  | none => exact le_refl _
  | some q =>
      simp only
      exact le_add_of_nonneg_right (calculateDistance_nonneg _ _ _ _)

theorem foldl_addPoint_total_le (ps : List GPSPosition) (s : TripState) :
    getTotal s ≤ getTotal (List.foldl addPoint s ps) := by
  induction ps generalizing s with
  | nil => exact le_refl _
  | cons p ps ih => exact le_trans (addPoint_total_le s p) (ih (addPoint s p))

/-! ### Claim theorems -/

/-- C7: `calculateDistance` equals the standard haversine formula on a sphere of
radius 6,371,000 m (`a = sin^2 (dphi/2) + cos phi1 * cos phi2 * sin^2 (dlam/2)`,
`c = 2 * atan2 (sqrt a, sqrt (1-a))`, `d = R * c`, angles converted from degrees
to radians), and `calculateDistance 0 0 0 1` is within 1 m of 111,194.9 m. -/
theorem claim_C7 :
    (∀ lat1 lon1 lat2 lon2 : ℝ,
      calculateDistance lat1 lon1 lat2 lon2 = haversineSpecDistance lat1 lon1 lat2 lon2) ∧
    |calculateDistance 0 0 0 1 - 111194.9| ≤ 1 := by
  constructor
  · exact calculateDistance_eq_spec
  · rw [calculateDistance_equator, abs_le]
    constructor
    · nlinarith [Real.pi_gt_d6]
    · nlinarith [Real.pi_lt_d6]

/-- C9: `calculateDistance` is zero at coincident points and symmetric in its
two points. -/
theorem claim_C9 :
    (∀ lat lon : ℝ, calculateDistance lat lon lat lon = 0) ∧
    (∀ lat1 lon1 lat2 lon2 : ℝ,
      calculateDistance lat1 lon1 lat2 lon2 = calculateDistance lat2 lon2 lat1 lon1) :=
  ⟨calculateDistance_self, calculateDistance_comm⟩

/-- C8: the accuracy tier is `high` iff accuracy < 5, `medium` iff 5 ≤ a < 10,
`low` iff 10 ≤ a < 20 and `poor` iff 20 ≤ a; the signal tier is `excellent` iff
a < 3, `good` iff 3 ≤ a < 8, `fair` iff 8 ≤ a < 15 and `poor` iff 15 ≤ a; with
no position available both exposed tiers are `poor`. -/
theorem claim_C8 (a : ℚ) :
    (getAccuracyLevel a = AccuracyLevel.high ↔ a < 5) ∧
    (getAccuracyLevel a = AccuracyLevel.medium ↔ 5 ≤ a ∧ a < 10) ∧
    (getAccuracyLevel a = AccuracyLevel.low ↔ 10 ≤ a ∧ a < 20) ∧
    (getAccuracyLevel a = AccuracyLevel.poor ↔ 20 ≤ a) ∧
    (getSignalStrength a = SignalStrength.excellent ↔ a < 3) ∧
    (getSignalStrength a = SignalStrength.good ↔ 3 ≤ a ∧ a < 8) ∧
    (getSignalStrength a = SignalStrength.fair ↔ 8 ≤ a ∧ a < 15) ∧
    (getSignalStrength a = SignalStrength.poor ↔ 15 ≤ a) ∧
    exposedAccuracy none = AccuracyLevel.poor ∧
    exposedSignalStrength none = SignalStrength.poor := by
  unfold getAccuracyLevel getSignalStrength exposedAccuracy exposedSignalStrength
  refine ⟨?_, ?_, ?_, ?_, ?_, ?_, ?_, ?_, rfl, rfl⟩ <;>
    split_ifs with h1 h2 h3 <;> simp_all <;>
    first
      | linarith
      | (intro hx; linarith)

/-- C10: position normalization maps a raw optional field equal to 0 (or null)
to an absent field and carries non-zero values through unchanged, for each of
altitude, altitudeAccuracy, heading and speed. -/
theorem claim_C10 (p : RawGeoPosition) :
    (p.coords.altitude = some 0 → (normalizePosition p).altitude = none) ∧
    (p.coords.altitudeAccuracy = some 0 → (normalizePosition p).altitudeAccuracy = none) ∧
    (p.coords.heading = some 0 → (normalizePosition p).heading = none) ∧
    (p.coords.speed = some 0 → (normalizePosition p).speed = none) ∧
    (∀ x : ℚ, x ≠ 0 → p.coords.altitude = some x → (normalizePosition p).altitude = some x) ∧
    (∀ x : ℚ, x ≠ 0 → p.coords.altitudeAccuracy = some x →
      (normalizePosition p).altitudeAccuracy = some x) ∧
    (∀ x : ℚ, x ≠ 0 → p.coords.heading = some x → (normalizePosition p).heading = some x) ∧
    (∀ x : ℚ, x ≠ 0 → p.coords.speed = some x → (normalizePosition p).speed = some x) := by
  unfold normalizePosition orUndefined
  refine ⟨?_, ?_, ?_, ?_, ?_, ?_, ?_, ?_⟩ <;> intro h <;> simp_all

/-- C10 witness: a raw sample with all four optional fields equal to 0 is
normalized to all-absent fields, and a non-zero heading of 90 is carried
through. -/
theorem claim_C10_witness :
    (normalizePosition sampleRawZeros).altitude = none ∧
    (normalizePosition sampleRawZeros).heading = none ∧
    (normalizePosition sampleRawHeading).heading = some 90 := by
  refine ⟨(claim_C10 sampleRawZeros).1 rfl, (claim_C10 sampleRawZeros).2.2.1 rfl,
    (claim_C10 sampleRawHeading).2.2.2.2.2.2.1 90 ?_ rfl⟩
  decide

/-- C6: for the trip distance accumulator, after a reset the first `addPoint`
leaves the total at 0, a second `addPoint` makes the total exactly the distance
between the two points, `addPoint` always replaces the stored previous point,
and the total is monotonically non-decreasing over every sequence of
`addPoint` calls. -/
theorem claim_C6 :
    (∀ (s : TripState) (p1 : GPSPosition), getTotal (addPoint (resetTrip s) p1) = 0) ∧
    (∀ (s : TripState) (p1 p2 : GPSPosition),
      getTotal (addPoint (addPoint (resetTrip s) p1) p2) =
        calculateDistance (p1.latitude : ℝ) (p1.longitude : ℝ)
          (p2.latitude : ℝ) (p2.longitude : ℝ)) ∧
    (∀ (s : TripState) (p : GPSPosition), (addPoint s p).lastPosition = some p) ∧
    (∀ (s : TripState) (ps : List GPSPosition),
      getTotal s ≤ getTotal (List.foldl addPoint s ps)) := by
  refine ⟨?_, ?_, addPoint_lastPosition, fun s ps => foldl_addPoint_total_le ps s⟩
  · intro s p1
    unfold resetTrip addPoint getTotal
    rfl
  · intro s p1 p2
    unfold resetTrip addPoint getTotal
    simp

/-- C2 counterexample: starting from a fresh idle instance, two consecutive
`startTracking` calls (geolocation supported, no background tracking) leave two
live watch subscriptions, not at most one, and the first watch (handle 0) is
still registered even after `stopTracking`. -/
theorem claim_C2_counterexample :
    ((startTracking false 30000 true
        (startTracking false 30000 true ({ } : GPSState))).liveWatches.length = 2) ∧
    ¬ ((startTracking false 30000 true
        (startTracking false 30000 true ({ } : GPSState))).liveWatches.length ≤ 1) ∧
    0 ∈ (stopTracking (startTracking false 30000 true
        (startTracking false 30000 true ({ } : GPSState)))).liveWatches := by
  decide

/-- C2 (amended): `startTracking` has no already-Active guard: a second
consecutive call registers a second concurrent `watchPosition` subscription and
overwrites the stored handle, so the first watch is left uncancelled —
`stopTracking` afterwards cancels only the most recent subscription. -/
theorem claim_C2 (s : GPSState) (bg : Bool) (wi : Int) :
    (startTracking bg wi true (startTracking bg wi true s)).liveWatches =
      (startTracking bg wi true s).nextHandle :: s.nextHandle :: s.liveWatches ∧
    (stopTracking (startTracking bg wi true (startTracking bg wi true s))).liveWatches =
      s.nextHandle :: s.liveWatches := by
  rcases s with ⟨pos, err, trk, wid, iid, lw, nh⟩
  by_cases hc : (bg = true ∧ wi > 0) <;> cases iid <;>
    simp [startTracking, stopTracking, hc, List.erase_cons_head]

/-- C3 counterexample: with an Active session (`isTracking = true`), a
`getCurrentPosition` call whose platform fetch fails with a timeout flips
`isTracking` to false, so the tracking state is not left unchanged. -/
theorem claim_C3_counterexample :
    (sampleActiveState.isTracking = true) ∧
    ((getCurrentPosition true (FetchOutcome.failure GeoErrorCode.timeout)
        sampleActiveState).1.isTracking = false) := by
  decide

/-- C3 (amended): `getCurrentPosition` leaves the tracking state unchanged when
geolocation is unsupported or when the fetch succeeds, but on any platform
error the shared `handleError` callback sets `isTracking` to false, knocking an
Active session to Idle. -/
theorem claim_C3 (s : GPSState) (o : FetchOutcome) :
    ((getCurrentPosition false o s).1.isTracking = s.isTracking) ∧
    (∀ raw, o = FetchOutcome.success raw →
      (getCurrentPosition true o s).1.isTracking = s.isTracking) ∧
    (∀ c, o = FetchOutcome.failure c →
      (getCurrentPosition true o s).1.isTracking = false) := by
  refine ⟨?_, ?_, ?_⟩
  · simp [getCurrentPosition]
  · intro raw h
    subst h
    simp [getCurrentPosition, handlePositionUpdate]
  · intro c h
    subst h
    simp [getCurrentPosition, handleError]

/-- C3 witness: the theorem applied at a concrete Active state, to an
unsupported call, a successful fetch and a timed-out fetch. -/
theorem claim_C3_witness :
    ((getCurrentPosition false (FetchOutcome.failure GeoErrorCode.timeout)
        ({ isTracking := true } : GPSState)).1.isTracking =
      ({ isTracking := true } : GPSState).isTracking) ∧
    ((getCurrentPosition true (FetchOutcome.success sampleRaw)
        ({ isTracking := true } : GPSState)).1.isTracking =
      ({ isTracking := true } : GPSState).isTracking) ∧
    ((getCurrentPosition true (FetchOutcome.failure GeoErrorCode.timeout)
        ({ isTracking := true } : GPSState)).1.isTracking = false) :=
  ⟨(claim_C3 { isTracking := true } (FetchOutcome.failure GeoErrorCode.timeout)).1,
    (claim_C3 { isTracking := true } (FetchOutcome.success _)).2.1 _ rfl,
    (claim_C3 { isTracking := true } (FetchOutcome.failure GeoErrorCode.timeout)).2.2
      GeoErrorCode.timeout rfl⟩

/-- C4 counterexample: with a session error present, `stopTracking` leaves the
error in place — it does not clear the in-session error to absent. -/
theorem claim_C4_counterexample :
    (stopTracking sampleErrorState).error = some GPSError.timeout ∧
    ¬ ((stopTracking sampleErrorState).error = none) := by
  decide

/-- C4 (amended): for every state, `stopTracking` cancels the watch
subscription and the fallback interval if scheduled, transitions the session to
Idle and leaves the last known position unchanged — but it leaves the
in-session error unchanged rather than clearing it; when already Idle with no
handles it is a no-op. -/
theorem claim_C4 (s : GPSState) :
    (stopTracking s).isTracking = false ∧
    (stopTracking s).watchId = none ∧
    (stopTracking s).intervalId = none ∧
    (stopTracking s).position = s.position ∧
    (stopTracking s).error = s.error ∧
    (∀ w, s.watchId = some w → (stopTracking s).liveWatches = s.liveWatches.erase w) ∧
    (s.watchId = none → (stopTracking s).liveWatches = s.liveWatches) ∧
    (s.isTracking = false → s.watchId = none → s.intervalId = none → stopTracking s = s) := by
  rcases s with ⟨pos, err, trk, wid, iid, lw, nh⟩
  cases wid <;> cases iid <;> simp [stopTracking]

/-- C4 witness: the theorem applied at a concrete state with a live watch, a
scheduled interval and a stored error, and at a concrete idle state. -/
theorem claim_C4_witness :
    ((stopTracking sampleFullState).liveWatches = List.erase [3] 3) ∧
    ((stopTracking sampleFullState).error = some GPSError.timeout) ∧
    (stopTracking ({ } : GPSState) = ({ } : GPSState)) :=
  ⟨(claim_C4 sampleFullState).2.2.2.2.2.1 3 rfl,
    (claim_C4 sampleFullState).2.2.2.2.1,
    (claim_C4 { }).2.2.2.2.2.2.2 rfl rfl rfl⟩

/-- C5 counterexample: when the platform resolves the fetch with a timeout
error, the promise returned by `getCurrentPosition` never settles (modelled as
`none`): the call does not complete and return to the caller. -/
theorem claim_C5_counterexample :
    (getCurrentPosition true (FetchOutcome.failure GeoErrorCode.timeout)
      ({ } : GPSState)).2 = none := by
  decide

/-- C5 (amended): `getCurrentPosition` resolves with the normalized position on
a successful fetch and resolves with null when geolocation is unsupported, and
no platform error is ever thrown past it (errors surface only as the session
error state) — but when the platform resolves the fetch with an error the
promise never settles, so the call does not complete. -/
theorem claim_C5 (s : GPSState) (o : FetchOutcome) :
    ((getCurrentPosition false o s).2 = some none) ∧
    (∀ raw, o = FetchOutcome.success raw →
      (getCurrentPosition true o s).2 = some (some (normalizePosition raw))) ∧
    (∀ c, o = FetchOutcome.failure c →
      (getCurrentPosition true o s).2 = none ∧
      (getCurrentPosition true o s).1.error = some (errorMessageOf c)) := by
  refine ⟨?_, ?_, ?_⟩
  · simp [getCurrentPosition]
  · intro raw h
    subst h
    simp [getCurrentPosition]
  · intro c h
    subst h
    simp [getCurrentPosition, handleError]

/-- C5 witness: the theorem applied at a concrete state, for an unsupported
call, a successful fetch and a timed-out fetch. -/
theorem claim_C5_witness :
    ((getCurrentPosition false (FetchOutcome.failure GeoErrorCode.timeout)
        ({ } : GPSState)).2 = some none) ∧
    ((getCurrentPosition true (FetchOutcome.success sampleRaw) ({ } : GPSState)).2 =
      some (some (normalizePosition sampleRaw))) ∧
    ((getCurrentPosition true (FetchOutcome.failure GeoErrorCode.timeout)
        ({ } : GPSState)).1.error = some (errorMessageOf GeoErrorCode.timeout)) :=
  ⟨(claim_C5 { } (FetchOutcome.failure GeoErrorCode.timeout)).1,
    (claim_C5 { } (FetchOutcome.success _)).2.1 _ rfl,
    ((claim_C5 { } (FetchOutcome.failure GeoErrorCode.timeout)).2.2
      GeoErrorCode.timeout rfl).2⟩

theorem check_granted_no_probe (env : Part006.PermEnv) (s : Part006.P6State)
    (hg : (Part006.checkPermissionStatus env s).1 = Part006.PermStatus.granted)
    (hp : Part006.probeFetchSucceeded env = false) :
    env.permApiAvailable = true ∧ env.queryOk = true ∧
      env.queryResult = Part006.PermStatus.granted := by
  by_cases hb : (env.isBrowser = false ∨ env.geoSupported = false)
  · simp [Part006.checkPermissionStatus, hb] at hg
  · by_cases hapi : (env.permApiAvailable = true ∧ env.queryOk = true)
    · refine ⟨hapi.1, hapi.2, ?_⟩
      simpa [Part006.checkPermissionStatus, hb, hapi] using hg
    · exfalso
      cases hpo : env.probeOutcome with
      | success raw =>
          simp [Part006.probeFetchSucceeded, hapi, fetchIsSuccess, hpo] at hp
      | failure c =>
          cases c <;> simp [Part006.checkPermissionStatus, hb, hapi, hpo] at hg

/-- C1 counterexample: on a platform whose Permissions API already reports
granted (and where every single-shot fetch would time out), `requestPermission`
returns true although no single-shot position fetch succeeded during the call
— the claim "returns true only when a single-shot position fetch actually
succeeds" is false. -/
theorem claim_C1_counterexample :
    ((Part006.requestPermission sampleGrantedEnv ({ } : Part006.P6State)).1 = true) ∧
    ((Part006.requestPermission sampleGrantedEnv ({ } : Part006.P6State)).2.1 = false) ∧
    (fetchIsSuccess sampleGrantedEnv.probeOutcome = false) ∧
    (fetchIsSuccess sampleGrantedEnv.mainFetchOutcome = false) := by
  decide

/-- C1 (amended): `requestPermission` returns true exactly when the platform is
supported and either the permission status check reports granted or the status
is neither granted nor denied and the triggering single-shot fetch succeeds; it
returns false on any denial or fetch failure; and the only way it returns true
without a successful fix is when the Permissions API query itself reported
granted. -/
theorem claim_C1 (env : Part006.PermEnv) (s : Part006.P6State) :
    ((Part006.requestPermission env s).1 = true ↔
      (env.isBrowser = true ∧ env.geoSupported = true ∧
        ((Part006.checkPermissionStatus env s).1 = Part006.PermStatus.granted ∨
          ((Part006.checkPermissionStatus env s).1 ≠ Part006.PermStatus.granted ∧
            (Part006.checkPermissionStatus env s).1 ≠ Part006.PermStatus.denied ∧
            fetchIsSuccess env.mainFetchOutcome = true)))) ∧
    ((Part006.requestPermission env s).1 = true →
      (Part006.requestPermission env s).2.1 = false →
      env.permApiAvailable = true ∧ env.queryOk = true ∧
        env.queryResult = Part006.PermStatus.granted) := by
  by_cases hb : (env.isBrowser = false ∨ env.geoSupported = false)
  · constructor
    · simp only [Part006.requestPermission, if_pos hb]
      rcases hb with h | h <;> simp [h]
    · intro h1
      simp [Part006.requestPermission, hb] at h1
  · have hbb : env.isBrowser = true ∧ env.geoSupported = true := by
      simp only [not_or, Bool.not_eq_false] at hb
      exact hb
    by_cases hg : (Part006.checkPermissionStatus env s).1 = Part006.PermStatus.granted
    · constructor
      · simp [Part006.requestPermission, hb, hg, hbb.1, hbb.2]
      · intro _ hp
        have hp2 : Part006.probeFetchSucceeded env = false := by
          simpa [Part006.requestPermission, hb, hg] using hp
        exact check_granted_no_probe env s hg hp2
    · by_cases hd : (Part006.checkPermissionStatus env s).1 = Part006.PermStatus.denied
      · constructor
        · simp [Part006.requestPermission, hb, hg, hd]
        · intro h1
          simp [Part006.requestPermission, hb, hg, hd] at h1
      · cases hmo : env.mainFetchOutcome with
        | success raw =>
            constructor
            · simp [Part006.requestPermission, hb, hg, hd, hmo, fetchIsSuccess, hbb.1, hbb.2]
            · intro _ hp
              exfalso
              simp [Part006.requestPermission, hb, hg, hd, hmo] at hp
        | failure c =>
            constructor
            · cases c <;>
                simp [Part006.requestPermission, hb, hg, hd, hmo, fetchIsSuccess]
            · intro h1
              cases c <;> simp [Part006.requestPermission, hb, hg, hd, hmo] at h1

/-- C1 witness: the amended theorem applied to the concrete granted-query
environment, discharging both hypotheses of its second conjunct. -/
theorem claim_C1_witness :
    sampleGrantedEnv.permApiAvailable = true ∧ sampleGrantedEnv.queryOk = true ∧
      sampleGrantedEnv.queryResult = Part006.PermStatus.granted :=
  (claim_C1 sampleGrantedEnv { }).2 rfl rfl

end BoatApp
